import Mathlib

/-!
Shallow embedding of the VibeStudio / TermiStyle theme engine.

The definitions below are translated from the TypeScript sources:
`src/ThemeManager.ts` (applyTheme, applyCustomEffects, saveTheme,
createBackup), `src/AutoSwitcher.ts` (applyTimeBasedTheme),
`src/ExportManager.ts` (exportToAlacritty, importTheme) and the data
model in `types.ts`.

Modelling conventions:
- A JavaScript object used as a color map is modelled as a total function
  `String → Option (Option String)`: the outer `Option` is key presence,
  the inner `Option` is the JS value (`none` = `undefined`).
- `Object.assign(m, literal)` is modelled by `jsAssign`, a lookup in the
  literal's association list falling back to the underlying map.
- JS numbers that the engine only stores are modelled as `Rat`
  (`lineHeight`); integral quantities (`font.size`, `effects.transparency`,
  hours) are modelled as `Nat`, matching the documented integer ranges.
- The one arithmetic JS expression, `Math.round((100 - transparency) * 2.55)`,
  is modelled with exact integer arithmetic over the IEEE-754 binary64
  semantics the engine actually runs under: `2.55` denotes the nearest
  double `5742089524897382 / 2^51` (slightly below 51/20), the product is
  rounded to 53 significant bits with round-to-nearest, ties-to-even, and
  `Math.round` takes the nearest integer with ties toward positive
  infinity.  This reproduces the program's alpha values exactly, including
  `127` (not 128) at transparency 50 and `229` (not 230) at transparency
  10, where the double product falls just below the half point.
-/

namespace VibeStudio

/-- Font settings of a theme document (`TerminalTheme.font` in `types.ts`). -/
structure FontSettings where
  family : String
  size : Nat
  weight : String
  ligatures : Bool
  lineHeight : Rat
deriving DecidableEq

/-- Cursor settings of a theme document (`TerminalTheme.cursor`). -/
structure CursorSettings where
  style : String
  blinking : Bool
  color : String
deriving DecidableEq

/-- Terminal tab colors (`TerminalTheme.colors.tab`). -/
structure TabColors where
  activeForeground : String
  activeBackground : String
  inactiveForeground : String
  inactiveBackground : String
  border : String
deriving DecidableEq

/-- Terminal colors of a theme document (`TerminalTheme.colors`). -/
structure ThemeColors where
  background : String
  foreground : String
  selection : String
  selectionBackground : String
  ansiBlack : String
  ansiRed : String
  ansiGreen : String
  ansiYellow : String
  ansiBlue : String
  ansiMagenta : String
  ansiCyan : String
  ansiWhite : String
  ansiBrightBlack : String
  ansiBrightRed : String
  ansiBrightGreen : String
  ansiBrightYellow : String
  ansiBrightBlue : String
  ansiBrightMagenta : String
  ansiBrightCyan : String
  ansiBrightWhite : String
  border : String
  tab : TabColors
deriving DecidableEq

/-- Editor core colors (`editorTheme.editor`); `selectionForeground` is
optional in `types.ts`. -/
structure EditorCoreColors where
  background : String
  foreground : String
  selectionBackground : String
  selectionForeground : Option String
  lineHighlightBackground : String
  cursorColor : String
  indentGuideBackground : String
  indentGuideActiveBackground : String
deriving DecidableEq

/-- Activity bar colors (`editorTheme.activityBar`). -/
structure ActivityBarColors where
  background : String
  foreground : String
  inactiveForeground : String
  border : String
  activeBorder : String
  activeBackground : String
deriving DecidableEq

/-- Side bar colors (`editorTheme.sideBar`). -/
structure SideBarColors where
  background : String
  foreground : String
  border : String
deriving DecidableEq

/-- Side bar section header colors (`editorTheme.sideBarSectionHeader`,
optional in `types.ts`). -/
structure SideBarSectionHeaderColors where
  background : String
  foreground : String
  border : String
deriving DecidableEq

/-- Panel title colors (`editorTheme.panelTitle`, accessed optionally in
`applyTheme` with the `?.` operator). -/
structure PanelTitleColors where
  background : String
  activeForeground : String
  activeBorder : String
  inactiveForeground : String
deriving DecidableEq

/-- Status bar colors (`editorTheme.statusBar`). -/
structure StatusBarColors where
  background : String
  foreground : String
  border : String
  debuggingBackground : String
  debuggingForeground : String
  noFolderBackground : String
  noFolderForeground : String
deriving DecidableEq

/-- Title bar colors (`editorTheme.titleBar`). -/
structure TitleBarColors where
  activeBackground : String
  activeForeground : String
  inactiveBackground : String
  inactiveForeground : String
  border : String
deriving DecidableEq

/-- Panel colors (`editorTheme.panel`). -/
structure PanelColors where
  background : String
  border : String
  dropBorder : String
deriving DecidableEq

/-- Editor tab colors (`editorTheme.tab`). -/
structure EditorTabColors where
  activeBackground : String
  activeForeground : String
  activeBorder : String
  activeBorderTop : String
  inactiveBackground : String
  inactiveForeground : String
  inactiveModifiedBorder : String
  unfocusedActiveBackground : String
  unfocusedActiveForeground : String
  unfocusedInactiveBackground : String
  unfocusedInactiveForeground : String
  border : String
deriving DecidableEq

/-- Input control colors (`editorTheme.input`). -/
structure InputColors where
  background : String
  foreground : String
  border : String
  placeholderForeground : String
deriving DecidableEq

/-- Dropdown colors (`editorTheme.dropdown`). -/
structure DropdownColors where
  background : String
  foreground : String
  border : String
deriving DecidableEq

/-- Button colors (`editorTheme.button`). -/
structure ButtonColors where
  background : String
  foreground : String
  hoverBackground : String
  secondaryBackground : String
  secondaryForeground : String
  secondaryHoverBackground : String
deriving DecidableEq

/-- Checkbox colors (`editorTheme.checkbox`). -/
structure CheckboxColors where
  background : String
  foreground : String
  border : String
deriving DecidableEq

/-- Badge colors (`editorTheme.badge`). -/
structure BadgeColors where
  background : String
  foreground : String
deriving DecidableEq

/-- Progress bar colors (`editorTheme.progressBar`). -/
structure ProgressBarColors where
  background : String
deriving DecidableEq

/-- List and tree colors (`editorTheme.list`). -/
structure ListColors where
  activeSelectionBackground : String
  activeSelectionForeground : String
  inactiveSelectionBackground : String
  inactiveSelectionForeground : String
  hoverBackground : String
  hoverForeground : String
  focusBackground : String
  focusForeground : String
deriving DecidableEq

/-- Scrollbar colors (`editorTheme.scrollbar`). -/
structure ScrollbarColors where
  shadow : String
deriving DecidableEq

/-- Token highlighting colors; this models the source field named `syntax`
in `editorTheme` (the source field names `comment`, `keyword`, `string`,
`number`, `function`, `variable`, `type`, `class`, `interface`,
`namespace`, `operator`, `punctuation`, `constant`, `property`, `tag`,
`attribute` are suffixed with `Color` here because several of them are
Lean keywords). -/
structure CodeTokenColors where
  commentColor : String
  keywordColor : String
  stringColor : String
  numberColor : String
  functionColor : String
  variableColor : String
  typeColor : String
  classColor : String
  interfaceColor : String
  namespaceColor : String
  operatorColor : String
  punctuationColor : String
  constantColor : String
  propertyColor : String
  tagColor : String
  attributeColor : String
deriving DecidableEq

/-- The optional editor/workbench theme of a document
(`TerminalTheme.editorTheme`).  `sideBarSectionHeader` is optional in
`types.ts`; `panelTitle` is read optionally (with `?.`) by `applyTheme`,
so both are `Option` here.  The field `tokenColors` models the source
field `syntax`. -/
structure EditorTheme where
  editor : EditorCoreColors
  activityBar : ActivityBarColors
  sideBar : SideBarColors
  sideBarSectionHeader : Option SideBarSectionHeaderColors
  panelTitle : Option PanelTitleColors
  statusBar : StatusBarColors
  titleBar : TitleBarColors
  panel : PanelColors
  tab : EditorTabColors
  input : InputColors
  dropdown : DropdownColors
  button : ButtonColors
  checkbox : CheckboxColors
  badge : BadgeColors
  progressBar : ProgressBarColors
  list : ListColors
  scrollbar : ScrollbarColors
  tokenColors : CodeTokenColors
deriving DecidableEq

/-- Integration flags of a theme document (`TerminalTheme.integration`). -/
structure ThemeIntegration where
  applyToEditor : Bool
  applyToTerminal : Bool
  applyToWorkbench : Bool
  customCss : Option String
deriving DecidableEq

/-- Visual effects of a theme document (`TerminalTheme.effects`). -/
structure ThemeEffects where
  transparency : Nat
  blur : Nat
  animations : Bool
  particleEffects : Bool
  glowEffect : Bool
  scanlines : Bool
  crtEffect : Bool
deriving DecidableEq

/-- A theme document (`TerminalTheme` in `types.ts`). -/
structure TerminalTheme where
  name : String
  version : String
  author : Option String
  description : Option String
  created : String
  modified : String
  font : FontSettings
  cursor : CursorSettings
  colors : ThemeColors
  editorTheme : Option EditorTheme
  integration : ThemeIntegration
  effects : ThemeEffects
deriving DecidableEq

/-- Auto-switch mode (`AutoSwitchConfig.mode`, the strings "time" and
"system" in the source). -/
inductive SwitchMode where
  | time
  | system
deriving DecidableEq

/-- Auto-switch configuration (`AutoSwitchConfig` in `types.ts`). -/
structure AutoSwitchConfig where
  enabled : Bool
  mode : SwitchMode
  lightTheme : String
  darkTheme : String
  lightHour : Nat
  darkHour : Nat
deriving DecidableEq

/-- The persisted UI color map (`workbench.colorCustomizations`): a JS
object from fully qualified color keys to values.  `none` means the key is
absent; `some none` means the key is present with value `undefined` (as
happens for optional sub-records copied by `Object.assign`); `some (some s)`
is a string value. -/
def UIMap : Type := String → Option (Option String)

/-- The empty color map (`{}`). -/
def emptyUIMap : UIMap := fun _ => none

/-- Shallow key-overwrite of a JS object literal onto a map, modelling
`Object.assign(m, {k₁: v₁, …})`: keys of the literal win, every other key
keeps its value in `m`.  The literals in `applyTheme` have pairwise
distinct keys, so first-match lookup agrees with JS semantics. -/
def jsAssign (m : UIMap) (entries : List (String × Option String)) : UIMap :=
  fun key =>
    match entries.lookup key with
    | some v => some v
    | none => m key

/-- JS truthiness of an optional string field (`undefined` and `""` are
falsy). -/
def jsTruthy : Option String → Bool
  | none => false
  | some s => s ≠ ""

/-- JS `a || b` on an optional string (used for
`theme.description || "TermiStyle theme"`). -/
def jsOrElse (o : Option String) (dflt : String) : String :=
  match o with
  | some s => if s = "" then dflt else s
  | none => dflt

/-- The `terminalColors` object literal of `ThemeManager.applyTheme`
(lines 312–335): 22 keys, always merged last. -/
def terminalColors (theme : TerminalTheme) : List (String × Option String) :=
  [("terminal.background", some theme.colors.background),
   ("terminal.foreground", some theme.colors.foreground),
   ("terminal.selectionBackground", some theme.colors.selectionBackground),
   ("terminal.ansiBlack", some theme.colors.ansiBlack),
   ("terminal.ansiRed", some theme.colors.ansiRed),
   ("terminal.ansiGreen", some theme.colors.ansiGreen),
   ("terminal.ansiYellow", some theme.colors.ansiYellow),
   ("terminal.ansiBlue", some theme.colors.ansiBlue),
   ("terminal.ansiMagenta", some theme.colors.ansiMagenta),
   ("terminal.ansiCyan", some theme.colors.ansiCyan),
   ("terminal.ansiWhite", some theme.colors.ansiWhite),
   ("terminal.ansiBrightBlack", some theme.colors.ansiBrightBlack),
   ("terminal.ansiBrightRed", some theme.colors.ansiBrightRed),
   ("terminal.ansiBrightGreen", some theme.colors.ansiBrightGreen),
   ("terminal.ansiBrightYellow", some theme.colors.ansiBrightYellow),
   ("terminal.ansiBrightBlue", some theme.colors.ansiBrightBlue),
   ("terminal.ansiBrightMagenta", some theme.colors.ansiBrightMagenta),
   ("terminal.ansiBrightCyan", some theme.colors.ansiBrightCyan),
   ("terminal.ansiBrightWhite", some theme.colors.ansiBrightWhite),
   ("terminal.border", some theme.colors.border),
   ("terminalCursor.foreground", some theme.cursor.color),
   ("terminalCursor.background", some theme.colors.background)]

/-- The `editorColors` object literal of `ThemeManager.applyTheme`
(lines 340–445), built when `applyToEditor` is true and `editorTheme` is
present.  Optional sub-records (`sideBarSectionHeader?.`, `panelTitle?.`)
and the optional `editor.selectionForeground` yield `undefined`
(modelled `none`) when absent. -/
def editorColors (et : EditorTheme) : List (String × Option String) :=
  [("editor.background", some et.editor.background),
   ("editor.foreground", some et.editor.foreground),
   ("editor.selectionBackground", some et.editor.selectionBackground),
   ("editor.selectionForeground", et.editor.selectionForeground),
   ("editor.lineHighlightBackground", some et.editor.lineHighlightBackground),
   ("editorCursor.foreground", some et.editor.cursorColor),
   ("editorIndentGuide.background", some et.editor.indentGuideBackground),
   ("editorIndentGuide.activeBackground", some et.editor.indentGuideActiveBackground),
   ("activityBar.background", some et.activityBar.background),
   ("activityBar.foreground", some et.activityBar.foreground),
   ("activityBar.inactiveForeground", some et.activityBar.inactiveForeground),
   ("activityBar.border", some et.activityBar.border),
   ("activityBar.activeBorder", some et.activityBar.activeBorder),
   ("activityBar.activeBackground", some et.activityBar.activeBackground),
   ("sideBar.background", some et.sideBar.background),
   ("sideBar.foreground", some et.sideBar.foreground),
   ("sideBar.border", some et.sideBar.border),
   ("sideBarSectionHeader.background", et.sideBarSectionHeader.map (fun r => r.background)),
   ("sideBarSectionHeader.foreground", et.sideBarSectionHeader.map (fun r => r.foreground)),
   ("sideBarSectionHeader.border", et.sideBarSectionHeader.map (fun r => r.border)),
   ("panel.background", et.panelTitle.map (fun r => r.background)),
   ("panelTitle.activeForeground", et.panelTitle.map (fun r => r.activeForeground)),
   ("panelTitle.activeBorder", et.panelTitle.map (fun r => r.activeBorder)),
   ("panelTitle.inactiveForeground", et.panelTitle.map (fun r => r.inactiveForeground)),
   ("statusBar.background", some et.statusBar.background),
   ("statusBar.foreground", some et.statusBar.foreground),
   ("statusBar.border", some et.statusBar.border),
   ("statusBar.debuggingBackground", some et.statusBar.debuggingBackground),
   ("statusBar.debuggingForeground", some et.statusBar.debuggingForeground),
   ("statusBar.noFolderBackground", some et.statusBar.noFolderBackground),
   ("statusBar.noFolderForeground", some et.statusBar.noFolderForeground),
   ("titleBar.activeBackground", some et.titleBar.activeBackground),
   ("titleBar.activeForeground", some et.titleBar.activeForeground),
   ("titleBar.inactiveBackground", some et.titleBar.inactiveBackground),
   ("titleBar.inactiveForeground", some et.titleBar.inactiveForeground),
   ("titleBar.border", some et.titleBar.border),
   ("tab.activeBackground", some et.tab.activeBackground),
   ("tab.activeForeground", some et.tab.activeForeground),
   ("tab.activeBorder", some et.tab.activeBorder),
   ("tab.activeBorderTop", some et.tab.activeBorderTop),
   ("tab.inactiveBackground", some et.tab.inactiveBackground),
   ("tab.inactiveForeground", some et.tab.inactiveForeground),
   ("tab.inactiveModifiedBorder", some et.tab.inactiveModifiedBorder),
   ("tab.unfocusedActiveBackground", some et.tab.unfocusedActiveBackground),
   ("tab.unfocusedActiveForeground", some et.tab.unfocusedActiveForeground),
   ("tab.unfocusedInactiveBackground", some et.tab.unfocusedInactiveBackground),
   ("tab.unfocusedInactiveForeground", some et.tab.unfocusedInactiveForeground),
   ("tab.border", some et.tab.border),
   ("input.background", some et.input.background),
   ("input.foreground", some et.input.foreground),
   ("input.border", some et.input.border),
   ("input.placeholderForeground", some et.input.placeholderForeground),
   ("dropdown.background", some et.dropdown.background),
   ("dropdown.foreground", some et.dropdown.foreground),
   ("dropdown.border", some et.dropdown.border),
   ("button.background", some et.button.background),
   ("button.foreground", some et.button.foreground),
   ("button.hoverBackground", some et.button.hoverBackground),
   ("button.secondaryBackground", some et.button.secondaryBackground),
   ("button.secondaryForeground", some et.button.secondaryForeground),
   ("button.secondaryHoverBackground", some et.button.secondaryHoverBackground),
   ("checkbox.background", some et.checkbox.background),
   ("checkbox.foreground", some et.checkbox.foreground),
   ("checkbox.border", some et.checkbox.border),
   ("badge.background", some et.badge.background),
   ("badge.foreground", some et.badge.foreground),
   ("progressBar.background", some et.progressBar.background),
   ("list.activeSelectionBackground", some et.list.activeSelectionBackground),
   ("list.activeSelectionForeground", some et.list.activeSelectionForeground),
   ("list.inactiveSelectionBackground", some et.list.inactiveSelectionBackground),
   ("list.inactiveSelectionForeground", some et.list.inactiveSelectionForeground),
   ("list.hoverBackground", some et.list.hoverBackground),
   ("list.hoverForeground", some et.list.hoverForeground),
   ("list.focusBackground", some et.list.focusBackground),
   ("list.focusForeground", some et.list.focusForeground)]

/-- The three generic editor keys written when `applyToEditor` is true but
`editorTheme` is absent (`applyTheme` lines 511–518). -/
def editorFallbackColors (theme : TerminalTheme) : List (String × Option String) :=
  [("editor.background", some theme.colors.background),
   ("editor.foreground", some theme.colors.foreground),
   ("editor.selectionBackground", some theme.colors.selectionBackground)]

/-- The four generic workbench keys written when `applyToWorkbench` is true
and `editorTheme` is absent (`applyTheme` lines 520–528). -/
def workbenchFallbackColors (theme : TerminalTheme) : List (String × Option String) :=
  [("sideBar.background", some theme.colors.background),
   ("activityBar.background", some theme.colors.background),
   ("statusBar.background", some theme.colors.background),
   ("titleBar.activeBackground", some theme.colors.background)]

/-- The editor-integration step of `applyTheme` (lines 338–518): the
comprehensive `editorColors` fan-out when `editorTheme` is present, the
three-key fallback when it is absent, and no write when `applyToEditor` is
false. -/
def applyEditorStage (theme : TerminalTheme) (m : UIMap) : UIMap :=
  match theme.editorTheme, theme.integration.applyToEditor with
  | some et, true => jsAssign m (editorColors et)
  | none, true => jsAssign m (editorFallbackColors theme)
  | _, false => m

/-- The workbench-fallback step of `applyTheme` (lines 520–528). -/
def applyWorkbenchStage (theme : TerminalTheme) (m : UIMap) : UIMap :=
  if theme.integration.applyToWorkbench && theme.editorTheme.isNone then
    jsAssign m (workbenchFallbackColors theme)
  else m

/-- The color-map output of `applyTheme` up to and including the final
`Object.assign(colorCustomizations, terminalColors)` (line 531), i.e. the
map written by the `workbench.colorCustomizations` update at line 533. -/
def applyThemeColorMap (theme : TerminalTheme) (currentMap : UIMap) : UIMap :=
  jsAssign (applyWorkbenchStage theme (applyEditorStage theme currentMap)) (terminalColors theme)

/-- Bit length of a natural number, fuel-bounded (64 bits is enough for
every value arising here). -/
def natBitsAux (fuel : Nat) (n : Nat) : Nat :=
  match fuel, n with
  | 0, _ => 0
  | _, 0 => 0
  | fuel + 1, n + 1 => natBitsAux fuel ((n + 1) / 2) + 1

/-- Bit length of a natural number below `2^64`. -/
def natBits (n : Nat) : Nat := natBitsAux 64 n

/-- The IEEE-754 binary64 value of the literal `2.55`, as the integer
numerator over `2^51`: `2.55` is not dyadic, and its nearest double is
`5742089524897382 / 2^51`, slightly below `51 / 20`. -/
def double255Num : Nat := 5742089524897382

/-- The alpha channel computed by `applyCustomEffects` (line 559):
`Math.round((100 - transparency) * 2.55)` under the IEEE-754 binary64
arithmetic the program runs with.  The exact product
`(100 - t) * double255Num / 2^51` is rounded to 53 significant bits
(round-to-nearest, ties-to-even) — the double multiplication — and
`Math.round` then takes the nearest integer with ties toward positive
infinity, i.e. the floor of the value plus one half.  For transparency 50
and 10 the double product is just below the half point, so the result is
127 and 229, one less than exact half-up rounding of `(100 - t) * 2.55`
would give. -/
def transparencyAlpha (transparency : Nat) : Nat :=
  let p := (100 - transparency) * double255Num
  let s := natBits p - 53
  let q := p / 2 ^ s
  let r := p % 2 ^ s
  let m :=
    if s = 0 then q
    else if 2 * r > 2 ^ s then q + 1
    else if 2 * r < 2 ^ s then q
    else if q % 2 = 0 then q else q + 1
  (m * 2 ^ s + 2 ^ 50) / 2 ^ 51

/-- The alpha value the claim's and spec's formula `round((100-T)*2.55)`
denotes under exact rational half-up rounding.  This definition follows
the spec's words, for comparison with `transparencyAlpha`, the value the
code computes in double arithmetic; the two differ at transparency 10 and
50. -/
def specClaimedAlpha (transparency : Nat) : Nat :=
  ((100 - transparency) * 255 * 2 + 100) / 200

/-- Two-digit lowercase hex rendering:
`alpha.toString(16).padStart(2, "0")`. -/
def natToHex2 (n : Nat) : String :=
  let s := String.mk (Nat.toDigits 16 n)
  if s.length < 2 then "0" ++ s else s

/-- The map transformation of `ThemeManager.applyCustomEffects`
(lines 553–565): when `effects.transparency > 0`, the terminal background
key is overwritten with the document background plus the 2-digit hex alpha
suffix; otherwise nothing is written. -/
def applyCustomEffectsMap (theme : TerminalTheme) (m : UIMap) : UIMap :=
  if theme.effects.transparency > 0 then
    fun key =>
      if key = "terminal.background" then
        some (some (theme.colors.background ++ natToHex2 (transparencyAlpha theme.effects.transparency)))
      else m key
  else m

/-- The final persisted color map after one `ThemeManager.applyTheme` call:
the color-map stages (lines 312–533) followed by `applyCustomEffects`,
which runs only when `theme.integration.customCss` is truthy (line 541). -/
def applyTheme (theme : TerminalTheme) (currentMap : UIMap) : UIMap :=
  if jsTruthy theme.integration.customCss then
    applyCustomEffectsMap theme (applyThemeColorMap theme currentMap)
  else
    applyThemeColorMap theme currentMap

/-- The discrete (non-color) settings written by `applyTheme`
(lines 302–309): always taken from `theme.font` / `theme.cursor`,
independent of the integration flags. -/
structure DiscreteSettings where
  fontFamily : String
  fontSize : Nat
  fontWeight : String
  fontLineHeight : Rat
  cursorStyle : String
  cursorBlinking : Bool
deriving DecidableEq

/-- The discrete settings output of `applyTheme`. -/
def applyThemeDiscrete (theme : TerminalTheme) : DiscreteSettings :=
  { fontFamily := theme.font.family
    fontSize := theme.font.size
    fontWeight := theme.font.weight
    fontLineHeight := theme.font.lineHeight
    cursorStyle := theme.cursor.style
    cursorBlinking := theme.cursor.blinking }

/-- A value written to the host configuration store by `config.update`. -/
inductive ConfigValue where
  | undef
  | str (s : String)
  | natNum (n : Nat)
  | ratNum (q : Rat)
  | boolVal (b : Bool)
  | colorMap (m : UIMap)
  | tokens (c : CodeTokenColors)

/-- The ordered sequence of `config.update` calls performed by one
`ThemeManager.applyTheme` invocation (lines 294–546), as
(key, value) pairs.  The `editor.tokenColorCustomizations` payload is
represented by the document's token colors (the source additionally
derives `textMateRules` from the same fields); `globalState` writes are
not configuration updates and are not part of the sequence. -/
def applyThemeUpdates (theme : TerminalTheme) (currentMap : UIMap) : List (String × ConfigValue) :=
  [("workbench.colorTheme", ConfigValue.undef),
   ("terminal.integrated.fontFamily", ConfigValue.str theme.font.family),
   ("terminal.integrated.fontSize", ConfigValue.natNum theme.font.size),
   ("terminal.integrated.fontWeight", ConfigValue.str theme.font.weight),
   ("terminal.integrated.lineHeight", ConfigValue.ratNum theme.font.lineHeight),
   ("terminal.integrated.cursorStyle", ConfigValue.str theme.cursor.style),
   ("terminal.integrated.cursorBlinking", ConfigValue.boolVal theme.cursor.blinking)]
  ++ (match theme.editorTheme, theme.integration.applyToEditor with
      | some et, true => [("editor.tokenColorCustomizations", ConfigValue.tokens et.tokenColors)]
      | _, _ => [])
  ++ [("workbench.colorCustomizations", ConfigValue.colorMap (applyThemeColorMap theme currentMap))]
  ++ (if theme.font.ligatures then [("editor.fontLigatures", ConfigValue.boolVal true)] else [])
  ++ (if jsTruthy theme.integration.customCss && theme.effects.transparency > 0 then
        [("workbench.colorCustomizations", ConfigValue.colorMap (applyTheme theme currentMap))]
      else [])

/-- The keys `applyTheme` writes into the color map for a given document:
the branch-dependent editor/workbench keys plus the unconditional terminal
keys (the transparency override only retouches `terminal.background`,
which is already a terminal key). -/
def writtenColorKeys (theme : TerminalTheme) : List String :=
  (match theme.editorTheme, theme.integration.applyToEditor with
   | some et, true => (editorColors et).map Prod.fst
   | none, true => (editorFallbackColors theme).map Prod.fst
   | _, false => [])
  ++ (if theme.integration.applyToWorkbench && theme.editorTheme.isNone then
        (workbenchFallbackColors theme).map Prod.fst
      else [])
  ++ (terminalColors theme).map Prod.fst

/-- The 22 color keys actually written by the terminal step of
`applyTheme` (the keys of `terminalColors`). -/
def terminalColorKeys : List String :=
  ["terminal.background", "terminal.foreground", "terminal.selectionBackground",
   "terminal.ansiBlack", "terminal.ansiRed", "terminal.ansiGreen", "terminal.ansiYellow",
   "terminal.ansiBlue", "terminal.ansiMagenta", "terminal.ansiCyan", "terminal.ansiWhite",
   "terminal.ansiBrightBlack", "terminal.ansiBrightRed", "terminal.ansiBrightGreen",
   "terminal.ansiBrightYellow", "terminal.ansiBrightBlue", "terminal.ansiBrightMagenta",
   "terminal.ansiBrightCyan", "terminal.ansiBrightWhite", "terminal.border",
   "terminalCursor.foreground", "terminalCursor.background"]

/-- The "20 terminal-specific color keys" named by the specification and
claim C2 (background, foreground, selection, the 16 ANSI slots, border,
and the 5 tab keys), rendered as the corresponding configuration keys.
This definition follows the spec's words, for comparison with the key set
the code actually writes. -/
def specClaimedTerminalKeys : List String :=
  ["terminal.background", "terminal.foreground", "terminal.selectionBackground",
   "terminal.ansiBlack", "terminal.ansiRed", "terminal.ansiGreen", "terminal.ansiYellow",
   "terminal.ansiBlue", "terminal.ansiMagenta", "terminal.ansiCyan", "terminal.ansiWhite",
   "terminal.ansiBrightBlack", "terminal.ansiBrightRed", "terminal.ansiBrightGreen",
   "terminal.ansiBrightYellow", "terminal.ansiBrightBlue", "terminal.ansiBrightMagenta",
   "terminal.ansiBrightCyan", "terminal.ansiBrightWhite", "terminal.border",
   "terminal.tab.activeForeground", "terminal.tab.activeBackground",
   "terminal.tab.inactiveForeground", "terminal.tab.inactiveBackground",
   "terminal.tab.border"]

/-- Time-based evaluation of `AutoSwitcher.applyTimeBasedTheme`
(line 231): `currentHour >= lightHour && currentHour < darkHour`. -/
def shouldUseLightTheme (config : AutoSwitchConfig) (currentHour : Nat) : Bool :=
  decide (currentHour ≥ config.lightHour) && decide (currentHour < config.darkHour)

/-- The theme name selected by `applyTimeBasedTheme` (line 232). -/
def timeBasedThemeName (config : AutoSwitchConfig) (currentHour : Nat) : String :=
  if shouldUseLightTheme config currentHour then config.lightTheme else config.darkTheme

/-- `ThemeManager.saveTheme` (lines 50–64) on a store list: sets
`modified` to the save time, overwrites in place the first entry with the
same name, and otherwise appends a new entry with `created` also set to
the save time. -/
def saveTheme (themes : List TerminalTheme) (theme : TerminalTheme) (now : String) : List TerminalTheme :=
  match themes.findIdx? (fun t => t.name == theme.name) with
  | some existingIndex => themes.set existingIndex { theme with modified := now }
  | none => themes ++ [{ theme with modified := now, created := now }]

/-- A backup snapshot (`ThemeBackup` in `types.ts`). -/
structure ThemeBackup where
  timestamp : String
  settings : List (String × ConfigValue)
  theme : Option TerminalTheme

/-- The ring-maintenance step of `ThemeManager.createBackup`
(lines 634–639): `unshift` the new snapshot, then keep only the first 10
entries when the length exceeds 10. -/
def pushBackup (backups : List ThemeBackup) (backup : ThemeBackup) : List ThemeBackup :=
  let backups := backup :: backups
  if backups.length > 10 then backups.take 10 else backups

/-- `ExportManager.exportToAlacritty` (lines 69–95): the terminal-emulator
YAML dialect, rendering only name, description and the 18 terminal color
fields (background, foreground, 8 normal and 8 bright ANSI colors). -/
def exportToAlacritty (theme : TerminalTheme) : String :=
  "# " ++ theme.name ++ " - " ++ jsOrElse theme.description "TermiStyle theme" ++
  "\ncolors:\n  primary:\n    background: \x27" ++ theme.colors.background ++
  "\x27\n    foreground: \x27" ++ theme.colors.foreground ++
  "\x27\n  \n  normal:\n    black:   \x27" ++ theme.colors.ansiBlack ++
  "\x27\n    red:     \x27" ++ theme.colors.ansiRed ++
  "\x27\n    green:   \x27" ++ theme.colors.ansiGreen ++
  "\x27\n    yellow:  \x27" ++ theme.colors.ansiYellow ++
  "\x27\n    blue:    \x27" ++ theme.colors.ansiBlue ++
  "\x27\n    magenta: \x27" ++ theme.colors.ansiMagenta ++
  "\x27\n    cyan:    \x27" ++ theme.colors.ansiCyan ++
  "\x27\n    white:   \x27" ++ theme.colors.ansiWhite ++
  "\x27\n  \n  bright:\n    black:   \x27" ++ theme.colors.ansiBrightBlack ++
  "\x27\n    red:     \x27" ++ theme.colors.ansiBrightRed ++
  "\x27\n    green:   \x27" ++ theme.colors.ansiBrightGreen ++
  "\x27\n    yellow:  \x27" ++ theme.colors.ansiBrightYellow ++
  "\x27\n    blue:    \x27" ++ theme.colors.ansiBrightBlue ++
  "\x27\n    magenta: \x27" ++ theme.colors.ansiBrightMagenta ++
  "\x27\n    cyan:    \x27" ++ theme.colors.ansiBrightCyan ++
  "\x27\n    white:   \x27" ++ theme.colors.ansiBrightWhite ++ "\x27"

/-- The fields of a theme document that `exportToAlacritty` reads: name,
description, and the 18 terminal color fields. -/
def alacrittyFields (theme : TerminalTheme) : String × Option String × List String :=
  (theme.name, theme.description,
   [theme.colors.background, theme.colors.foreground,
    theme.colors.ansiBlack, theme.colors.ansiRed, theme.colors.ansiGreen,
    theme.colors.ansiYellow, theme.colors.ansiBlue, theme.colors.ansiMagenta,
    theme.colors.ansiCyan, theme.colors.ansiWhite,
    theme.colors.ansiBrightBlack, theme.colors.ansiBrightRed, theme.colors.ansiBrightGreen,
    theme.colors.ansiBrightYellow, theme.colors.ansiBrightBlue, theme.colors.ansiBrightMagenta,
    theme.colors.ansiBrightCyan, theme.colors.ansiBrightWhite])

/-- The branch of `ExportManager.importTheme` selected by a file
extension. -/
inductive ImportBranch where
  | termiStyle
  | json
deriving DecidableEq

/-- The extension dispatch of `ExportManager.importTheme` (lines 50–59):
only `.termistyle`, `.code-terminal-theme` and `.json` are handled; every
other extension — in particular `.yml`, the extension `exportToAlacritty`
targets — throws `Unsupported file format`.  The JSON parsing inside the
handled branches is irrelevant to the claims and is abstracted to the
branch tag. -/
def importThemeDispatch (extension : String) : Except String ImportBranch :=
  if extension = ".termistyle" ∨ extension = ".code-terminal-theme" then
    Except.ok ImportBranch.termiStyle
  else if extension = ".json" then
    Except.ok ImportBranch.json
  else
    Except.error ("Unsupported file format: " ++ extension)

/-- A concrete theme document, mirroring the field values of
`ThemeManager.createDefaultTheme` (lines 689–763) with fixed timestamps;
used as the concrete input of witnesses and counterexamples. -/
def sampleTheme : TerminalTheme :=
  { name := "Default Terminal"
    version := "1.0.0"
    author := some "TermiStyle"
    description := some "VS Code default terminal theme"
    created := "2024-11-15T10:30:00.000Z"
    modified := "2024-11-15T10:30:00.000Z"
    font :=
      { family := "Consolas, monospace"
        size := 14
        weight := "normal"
        ligatures := false
        lineHeight := (6 : Rat) / 5 }
    cursor := { style := "block", blinking := false, color := "#ffffff" }
    colors :=
      { background := "#000000"
        foreground := "#ffffff"
        selection := "#ffffff40"
        selectionBackground := "#ffffff40"
        ansiBlack := "#000000"
        ansiRed := "#cd3131"
        ansiGreen := "#0dbc79"
        ansiYellow := "#e5e510"
        ansiBlue := "#2472c8"
        ansiMagenta := "#bc3fbc"
        ansiCyan := "#11a8cd"
        ansiWhite := "#e5e5e5"
        ansiBrightBlack := "#666666"
        ansiBrightRed := "#f14c4c"
        ansiBrightGreen := "#23d18b"
        ansiBrightYellow := "#f5f543"
        ansiBrightBlue := "#3b8eea"
        ansiBrightMagenta := "#d670d6"
        ansiBrightCyan := "#29b8db"
        ansiBrightWhite := "#e5e5e5"
        border := "#333333"
        tab :=
          { activeForeground := "#ffffff"
            activeBackground := "#333333"
            inactiveForeground := "#cccccc"
            inactiveBackground := "#2d2d30"
            border := "#333333" } }
    editorTheme := none
    integration :=
      { applyToEditor := false
        applyToTerminal := true
        applyToWorkbench := false
        customCss := none }
    effects :=
      { transparency := 0
        blur := 0
        animations := false
        particleEffects := false
        glowEffect := false
        scanlines := false
        crtEffect := false } }

/-- A theme with `effects.transparency = 50` but no `integration.customCss`
(counterexample input for the transparency claim). -/
def c1NoCssTheme : TerminalTheme :=
  { sampleTheme with effects := { sampleTheme.effects with transparency := 50 } }

/-- A theme with a truthy `integration.customCss` and
`effects.transparency = 100` (witness input for the amended transparency
claim). -/
def c1CssTheme : TerminalTheme :=
  { sampleTheme with
    integration := { sampleTheme.integration with customCss := some "custom.css" }
    effects := { sampleTheme.effects with transparency := 100 } }

/-- A theme with a truthy `integration.customCss` and
`effects.transparency = 50`, where the double product `50 * 2.55` falls
just below `127.5` and the code therefore writes alpha "7f". -/
def c1Css50Theme : TerminalTheme :=
  { sampleTheme with
    integration := { sampleTheme.integration with customCss := some "custom.css" }
    effects := { sampleTheme.effects with transparency := 50 } }

/-- A theme differing from `sampleTheme` only in fields the Alacritty
export does not read (witness input for export determinism). -/
def c3VariantTheme : TerminalTheme :=
  { sampleTheme with
    version := "2.0.0"
    font := { sampleTheme.font with size := 16 }
    effects := { sampleTheme.effects with blur := 5 } }

/-- A concrete auto-switch configuration with the spec's boundary hours
`lightHour = 6`, `darkHour = 18`. -/
def sampleSwitchConfig : AutoSwitchConfig :=
  { enabled := true
    mode := SwitchMode.time
    lightTheme := "Light Theme"
    darkTheme := "Dark Theme"
    lightHour := 6
    darkHour := 18 }

/-- First saved document named "X" (its own `created` field is later
overwritten by the insert branch of `saveTheme`). -/
def saveThemeDocA : TerminalTheme :=
  { sampleTheme with name := "X", created := "2024-01-01T00:00:00.000Z" }

/-- Second saved document named "X" with different content and a different
`created` field. -/
def saveThemeDocB : TerminalTheme :=
  { sampleTheme with
    name := "X"
    version := "2.0.0"
    created := "2029-09-09T09:09:09.000Z" }

/-- A simple backup snapshot carrying only a timestamp. -/
def sampleBackup (i : Nat) : ThemeBackup :=
  { timestamp := toString i, settings := [], theme := none }

/-- Fifteen backups pushed in sequence for the ring-bound witness. -/
def sampleBackups15 : List ThemeBackup :=
  (List.range 15).map sampleBackup

/-- A current color map holding one unrelated customization key. -/
def sampleUIMap : UIMap :=
  fun key => if key = "myExtension.customKey" then some (some "#abcdef") else none

/-! Helper lemmas shared by the claim theorems. -/

theorem lookup_isSome_iff_mem_keys {α β : Type} [BEq α] [LawfulBEq α]
    (l : List (α × β)) (a : α) :
    (l.lookup a).isSome = true ↔ a ∈ l.map Prod.fst := by
  simp only [List.lookup_isSome_iff, List.mem_map, beq_iff_eq]
  constructor
  · rintro ⟨p, hp, he⟩
    exact ⟨p, hp, he.symm⟩
  · rintro ⟨p, hp, he⟩
    exact ⟨p, hp, he.symm⟩

theorem lookup_eq_none_of_not_mem_keys {α β : Type} [BEq α] [LawfulBEq α]
    (l : List (α × β)) (a : α) (h : a ∉ l.map Prod.fst) :
    l.lookup a = none := by
  rw [List.lookup_eq_none_iff]
  intro p hp
  simp only [bne_iff_ne, ne_eq]
  intro he
  exact h (List.mem_map.mpr ⟨p, hp, he.symm⟩)

theorem jsAssign_writesOrSkips (entries : List (String × Option String)) (k : String) :
    (∃ v, ∀ m : UIMap, jsAssign m entries k = some v) ∨ ∀ m : UIMap, jsAssign m entries k = m k := by
  cases h : entries.lookup k with
  | some v => exact Or.inl ⟨v, fun m => by simp [jsAssign, h]⟩
  | none => exact Or.inr fun m => by simp [jsAssign, h]

theorem jsAssign_skips_of_not_mem (entries : List (String × Option String)) (k : String)
    (h : k ∉ entries.map Prod.fst) (m : UIMap) :
    jsAssign m entries k = m k := by
  simp [jsAssign, lookup_eq_none_of_not_mem_keys entries k h]

theorem applyEditorStage_writesOrSkips (t : TerminalTheme) (k : String) :
    (∃ v, ∀ m, applyEditorStage t m k = some v) ∨ ∀ m, applyEditorStage t m k = m k := by
  cases het : t.editorTheme with
  | some et =>
    cases hfl : t.integration.applyToEditor with
    | true =>
      have hdef : ∀ m, applyEditorStage t m = jsAssign m (editorColors et) := by
        intro m; unfold applyEditorStage; rw [het, hfl]
      rcases jsAssign_writesOrSkips (editorColors et) k with ⟨v, hv⟩ | hskip
      · exact Or.inl ⟨v, fun m => by rw [hdef m]; exact hv m⟩
      · exact Or.inr fun m => by rw [hdef m]; exact hskip m
    | false => exact Or.inr fun m => by unfold applyEditorStage; rw [het, hfl]
  | none =>
    cases hfl : t.integration.applyToEditor with
    | true =>
      have hdef : ∀ m, applyEditorStage t m = jsAssign m (editorFallbackColors t) := by
        intro m; unfold applyEditorStage; rw [het, hfl]
      rcases jsAssign_writesOrSkips (editorFallbackColors t) k with ⟨v, hv⟩ | hskip
      · exact Or.inl ⟨v, fun m => by rw [hdef m]; exact hv m⟩
      · exact Or.inr fun m => by rw [hdef m]; exact hskip m
    | false => exact Or.inr fun m => by unfold applyEditorStage; rw [het, hfl]

theorem applyWorkbenchStage_writesOrSkips (t : TerminalTheme) (k : String) :
    (∃ v, ∀ m, applyWorkbenchStage t m k = some v) ∨ ∀ m, applyWorkbenchStage t m k = m k := by
  by_cases hc : (t.integration.applyToWorkbench && t.editorTheme.isNone) = true
  · have hdef : ∀ m, applyWorkbenchStage t m = jsAssign m (workbenchFallbackColors t) := by
      intro m; unfold applyWorkbenchStage; rw [if_pos hc]
    rcases jsAssign_writesOrSkips (workbenchFallbackColors t) k with ⟨v, hv⟩ | hskip
    · exact Or.inl ⟨v, fun m => by rw [hdef m]; exact hv m⟩
    · exact Or.inr fun m => by rw [hdef m]; exact hskip m
  · exact Or.inr fun m => by unfold applyWorkbenchStage; rw [if_neg hc]

theorem writesOrSkips_comp {F G : UIMap → UIMap} {k : String}
    (hF : (∃ v, ∀ m, F m k = some v) ∨ ∀ m, F m k = m k)
    (hG : (∃ v, ∀ m, G m k = some v) ∨ ∀ m, G m k = m k) :
    (∃ v, ∀ m, F (G m) k = some v) ∨ ∀ m, F (G m) k = m k := by
  rcases hF with ⟨v, hv⟩ | hF
  · exact Or.inl ⟨v, fun m => hv (G m)⟩
  · rcases hG with ⟨v, hv⟩ | hG
    · exact Or.inl ⟨v, fun m => (hF (G m)).trans (hv m)⟩
    · exact Or.inr fun m => (hF (G m)).trans (hG m)

theorem applyThemeColorMap_writesOrSkips (t : TerminalTheme) (k : String) :
    (∃ v, ∀ m, applyThemeColorMap t m k = some v) ∨ ∀ m, applyThemeColorMap t m k = m k := by
  have h :=
    writesOrSkips_comp (F := fun m => jsAssign m (terminalColors t))
      (G := fun m => applyWorkbenchStage t (applyEditorStage t m))
      (jsAssign_writesOrSkips (terminalColors t) k)
      (writesOrSkips_comp (F := applyWorkbenchStage t) (G := applyEditorStage t)
        (applyWorkbenchStage_writesOrSkips t k) (applyEditorStage_writesOrSkips t k))
  exact h

theorem applyCustomEffectsMap_writesOrSkips (t : TerminalTheme) (k : String) :
    (∃ v, ∀ m, applyCustomEffectsMap t m k = some v) ∨ ∀ m, applyCustomEffectsMap t m k = m k := by
  by_cases ht : t.effects.transparency > 0
  · by_cases hk : k = "terminal.background"
    · refine Or.inl ⟨some (t.colors.background ++ natToHex2 (transparencyAlpha t.effects.transparency)),
        fun m => ?_⟩
      simp [applyCustomEffectsMap, ht, hk]
    · refine Or.inr fun m => ?_
      simp [applyCustomEffectsMap, ht, hk]
  · exact Or.inr fun m => by simp [applyCustomEffectsMap, ht]

theorem applyTheme_writesOrSkips (t : TerminalTheme) (k : String) :
    (∃ v, ∀ m, applyTheme t m k = some v) ∨ ∀ m, applyTheme t m k = m k := by
  have hcolor := applyThemeColorMap_writesOrSkips t k
  by_cases hcss : jsTruthy t.integration.customCss = true
  · have hdef : ∀ m, applyTheme t m = applyCustomEffectsMap t (applyThemeColorMap t m) := by
      intro m; unfold applyTheme; rw [if_pos hcss]
    have h :=
      writesOrSkips_comp (F := applyCustomEffectsMap t) (G := applyThemeColorMap t)
        (applyCustomEffectsMap_writesOrSkips t k) hcolor
    rcases h with ⟨v, hv⟩ | hs
    · exact Or.inl ⟨v, fun m => by rw [hdef m]; exact hv m⟩
    · exact Or.inr fun m => by rw [hdef m]; exact hs m
  · have hdef : ∀ m, applyTheme t m = applyThemeColorMap t m := by
      intro m; unfold applyTheme; rw [if_neg hcss]
    rcases hcolor with ⟨v, hv⟩ | hs
    · exact Or.inl ⟨v, fun m => by rw [hdef m]; exact hv m⟩
    · exact Or.inr fun m => by rw [hdef m]; exact hs m

/-- C4: `apply` is idempotent on the color-map output: applying the same
theme document twice yields the same persisted color map, with no
accumulation of keys or values, because every key the apply writes gets a
value that depends only on the document. -/
theorem applyTheme_idempotent :
    ∀ (theme : TerminalTheme) (m : UIMap),
      applyTheme theme (applyTheme theme m) = applyTheme theme m := by
  intro t m
  funext k
  rcases applyTheme_writesOrSkips t k with ⟨v, hv⟩ | hs
  · rw [hv, hv]
  · exact hs (applyTheme t m)

/-- C8: apply merges rather than replaces the persisted UI color map:
every key of the current map that is not among the keys apply writes for
the document is present in the resulting map with its value unchanged. -/
theorem applyTheme_preserves_unrelated_keys :
    ∀ (theme : TerminalTheme) (m : UIMap) (k : String),
      k ∉ writtenColorKeys theme → applyTheme theme m k = m k := by
  intro t m k hk
  simp only [writtenColorKeys, List.mem_append, not_or] at hk
  obtain ⟨⟨h1, h2⟩, h3⟩ := hk
  have hed : ∀ m' : UIMap, applyEditorStage t m' k = m' k := by
    intro m'
    cases het : t.editorTheme with
    | some et =>
      cases hfl : t.integration.applyToEditor with
      | true =>
        simp only [het, hfl] at h1
        unfold applyEditorStage
        simp only [het, hfl]
        exact jsAssign_skips_of_not_mem _ _ h1 m'
      | false =>
        unfold applyEditorStage
        simp only [het, hfl]
    | none =>
      cases hfl : t.integration.applyToEditor with
      | true =>
        simp only [het, hfl] at h1
        unfold applyEditorStage
        simp only [het, hfl]
        exact jsAssign_skips_of_not_mem _ _ h1 m'
      | false =>
        unfold applyEditorStage
        simp only [het, hfl]
  have hwb : ∀ m' : UIMap, applyWorkbenchStage t m' k = m' k := by
    intro m'
    by_cases hc : (t.integration.applyToWorkbench && t.editorTheme.isNone) = true
    · rw [if_pos hc] at h2
      unfold applyWorkbenchStage
      rw [if_pos hc]
      exact jsAssign_skips_of_not_mem _ _ h2 m'
    · unfold applyWorkbenchStage
      rw [if_neg hc]
  have hcm : applyThemeColorMap t m k = m k := by
    unfold applyThemeColorMap
    rw [jsAssign_skips_of_not_mem (terminalColors t) k h3, hwb, hed]
  unfold applyTheme
  by_cases hcss : jsTruthy t.integration.customCss = true
  · rw [if_pos hcss]
    unfold applyCustomEffectsMap
    by_cases ht : t.effects.transparency > 0
    · rw [if_pos ht]
      have hktb : ¬ k = "terminal.background" := by
        intro he
        subst he
        exact h3 (by simp [terminalColors])
      simp only [if_neg hktb]
      exact hcm
    · rw [if_neg ht]
      exact hcm
  · rw [if_neg hcss]
    exact hcm

/-- Witness for C8 at a concrete theme, map and unrelated key. -/
theorem applyTheme_preserves_unrelated_keys_witness :
    "myExtension.customKey" ∉ writtenColorKeys sampleTheme ∧
    applyTheme sampleTheme sampleUIMap "myExtension.customKey" =
      sampleUIMap "myExtension.customKey" :=
  ⟨by decide,
   applyTheme_preserves_unrelated_keys sampleTheme sampleUIMap "myExtension.customKey" (by decide)⟩

theorem terminalColors_keys (t : TerminalTheme) :
    (terminalColors t).map Prod.fst = terminalColorKeys := rfl

/-- C2 (amended): applying a document with `applyToTerminal = true`,
`applyToEditor = false`, `applyToWorkbench = false` and no `editorTheme`
onto an empty map yields a map whose key set is exactly the 22 keys of
`terminalColors` — the 20 keys the claim enumerates minus the 5 tab keys,
plus the two terminal-cursor keys — and hence zero editor- or
workbench-prefixed keys. -/
theorem applyTheme_terminalOnly_exact_keys (theme : TerminalTheme)
    (hterm : theme.integration.applyToTerminal = true)
    (hed : theme.integration.applyToEditor = false)
    (hwb : theme.integration.applyToWorkbench = false)
    (het : theme.editorTheme = none) :
    ∀ k, (applyTheme theme emptyUIMap k).isSome = true ↔ k ∈ terminalColorKeys := by
  intro k
  have hstage : applyThemeColorMap theme emptyUIMap = jsAssign emptyUIMap (terminalColors theme) := by
    unfold applyThemeColorMap applyWorkbenchStage applyEditorStage
    simp [het, hed, hwb]
  have hbase : ((jsAssign emptyUIMap (terminalColors theme) k).isSome = true) ↔
      k ∈ terminalColorKeys := by
    rw [← terminalColors_keys theme, ← lookup_isSome_iff_mem_keys]
    unfold jsAssign emptyUIMap
    cases h : (terminalColors theme).lookup k <;> simp [h]
  unfold applyTheme
  by_cases hcss : jsTruthy theme.integration.customCss = true
  · rw [if_pos hcss]
    unfold applyCustomEffectsMap
    by_cases ht : theme.effects.transparency > 0
    · rw [if_pos ht]
      by_cases hk : k = "terminal.background"
      · subst hk
        refine iff_of_true ?_ (by decide)
        simp
      · simp only [if_neg hk]
        rw [hstage]
        exact hbase
    · rw [if_neg ht]
      rw [hstage]
      exact hbase
  · rw [if_neg hcss]
    rw [hstage]
    exact hbase

/-- Witness for the amended C2 at the concrete sample theme. -/
theorem applyTheme_terminalOnly_exact_keys_witness :
    sampleTheme.integration.applyToTerminal = true ∧
    sampleTheme.integration.applyToEditor = false ∧
    sampleTheme.integration.applyToWorkbench = false ∧
    sampleTheme.editorTheme = none ∧
    (applyTheme sampleTheme emptyUIMap "terminal.ansiMagenta").isSome = true :=
  ⟨rfl, rfl, rfl, rfl,
   (applyTheme_terminalOnly_exact_keys sampleTheme rfl rfl rfl rfl "terminal.ansiMagenta").mpr
     (by decide)⟩

/-- C2 as stated is false: the resulting key set is not the claimed 20-key
set — the 5 `terminal.tab.*` keys are never written (and the two
`terminalCursor.*` keys are written although the claim does not list
them). -/
theorem applyTheme_terminalOnly_claimed20_counterexample :
    ¬ ∀ k, (applyTheme sampleTheme emptyUIMap k).isSome = true ↔ k ∈ specClaimedTerminalKeys := by
  intro h
  have h1 := (h "terminal.tab.activeForeground").mpr (by decide)
  exact absurd h1 (by decide)

/-- C1 as stated is false twice over at `T = 50`: (a) with
`effects.transparency = 50` but no `integration.customCss`,
`applyCustomEffects` is never invoked, so the terminal background keeps
the plain 6-digit value rather than gaining the claimed suffix "80"; and
(b) even with a truthy `customCss`, the code computes the alpha in double
arithmetic where `50 * 2.55 < 127.5`, writing suffix "7f", not the "80"
that the claim's exact formula `round((100-T)*2.55)` denotes. -/
theorem transparency_claim_counterexample :
    (c1NoCssTheme.effects.transparency = 50 ∧
     c1NoCssTheme.integration.customCss = none ∧
     applyTheme c1NoCssTheme emptyUIMap "terminal.background" = some (some "#000000") ∧
     natToHex2 (specClaimedAlpha 50) = "80" ∧
     some (some "#000000") ≠
       some (some (c1NoCssTheme.colors.background ++ natToHex2 (specClaimedAlpha 50)))) ∧
    (c1Css50Theme.effects.transparency = 50 ∧
     jsTruthy c1Css50Theme.integration.customCss = true ∧
     applyTheme c1Css50Theme emptyUIMap "terminal.background" = some (some "#0000007f") ∧
     some (some "#0000007f") ≠
       some (some (c1Css50Theme.colors.background ++ natToHex2 (specClaimedAlpha 50)))) := by
  exact ⟨⟨rfl, rfl, by decide, by decide, by decide⟩, ⟨rfl, by decide, by decide, by decide⟩⟩

/-- C1 (amended): for documents whose `integration.customCss` is truthy,
the terminal background is overridden with the document background plus
the 2-digit lowercase hex of `Math.round((100 - T) * 2.55)` as the
program's IEEE-754 double arithmetic evaluates it (`transparencyAlpha`)
whenever `0 < T ≤ 100` — which equals exact half-up rounding except at
`T = 50` (alpha "7f", not "80") and `T = 10` (alpha "e5", not "e6") —
and stays the plain background value when `T = 0`.  Without a truthy
`customCss` no suffix is ever appended. -/
theorem transparency_alpha_amended (theme : TerminalTheme) (m : UIMap)
    (hcss : jsTruthy theme.integration.customCss = true) :
    (0 < theme.effects.transparency → theme.effects.transparency ≤ 100 →
      applyTheme theme m "terminal.background" =
        some (some (theme.colors.background ++
          natToHex2 (transparencyAlpha theme.effects.transparency)))) ∧
    (theme.effects.transparency = 0 →
      applyTheme theme m "terminal.background" = some (some theme.colors.background)) := by
  constructor
  · intro hpos _
    unfold applyTheme
    rw [if_pos hcss]
    unfold applyCustomEffectsMap
    rw [if_pos hpos]
    simp
  · intro h0
    unfold applyTheme
    rw [if_pos hcss]
    unfold applyCustomEffectsMap
    rw [if_neg (by omega : ¬ theme.effects.transparency > 0)]
    unfold applyThemeColorMap
    simp [jsAssign, terminalColors]

/-- Witness for the amended C1: transparency 100 with a truthy customCss
yields alpha suffix "00", and the double-faithful alpha evaluates to "7f"
at transparency 50 and "e5" at transparency 10. -/
theorem transparency_alpha_amended_witness :
    jsTruthy c1CssTheme.integration.customCss = true ∧
    (0:Nat) < 100 ∧ (100:Nat) ≤ 100 ∧
    applyTheme c1CssTheme emptyUIMap "terminal.background" =
      some (some (c1CssTheme.colors.background ++
        natToHex2 (transparencyAlpha c1CssTheme.effects.transparency))) ∧
    natToHex2 (transparencyAlpha 100) = "00" ∧
    natToHex2 (transparencyAlpha 50) = "7f" ∧
    natToHex2 (transparencyAlpha 10) = "e5" ∧
    natToHex2 (transparencyAlpha 25) = "bf" ∧
    natToHex2 (transparencyAlpha 75) = "40" :=
  ⟨by decide, by decide, by decide,
   (transparency_alpha_amended c1CssTheme emptyUIMap (by decide)).1 (by decide) (by decide),
   by decide, by decide, by decide, by decide, by decide⟩

/-- C9: every `applyTheme` invocation writes `workbench.colorTheme` with
the value `undefined` as its very first configuration update, in
particular before the `workbench.colorCustomizations` write that it also
always performs. -/
theorem applyTheme_clears_base_theme_first :
    ∀ (theme : TerminalTheme) (m : UIMap),
      (applyThemeUpdates theme m).head? = some ("workbench.colorTheme", ConfigValue.undef) ∧
      ("workbench.colorCustomizations", ConfigValue.colorMap (applyThemeColorMap theme m)) ∈
        applyThemeUpdates theme m := by
  intro t m
  refine ⟨rfl, ?_⟩
  unfold applyThemeUpdates
  simp

/-- C10: `applyTheme` never consults `integration.applyToTerminal`:
flipping the flag changes neither the resulting color map, nor the
discrete font/cursor settings, nor the sequence of configuration
updates. -/
theorem applyTheme_ignores_applyToTerminal :
    ∀ (theme : TerminalTheme) (b : Bool) (m : UIMap),
      applyTheme { theme with integration := { theme.integration with applyToTerminal := b } } m =
        applyTheme theme m ∧
      applyThemeDiscrete { theme with integration := { theme.integration with applyToTerminal := b } } =
        applyThemeDiscrete theme ∧
      applyThemeUpdates { theme with integration := { theme.integration with applyToTerminal := b } } m =
        applyThemeUpdates theme m := by
  intro t b m
  exact ⟨rfl, rfl, rfl⟩

/-- C5: time-based evaluation selects the light theme exactly on the
half-open interval `lightHour ≤ h < darkHour`; when
`lightHour ≥ darkHour` the interval is empty and the dark theme is always
selected; with lightHour 6 and darkHour 18, hour 5 is dark, 6 light, 17
light, 18 dark. -/
theorem timeBased_half_open_interval :
    (∀ (config : AutoSwitchConfig) (h : Nat),
        config.lightHour ≤ 23 → config.darkHour ≤ 23 → h ≤ 23 →
        (shouldUseLightTheme config h = true ↔ (config.lightHour ≤ h ∧ h < config.darkHour)) ∧
        (config.darkHour ≤ config.lightHour → shouldUseLightTheme config h = false) ∧
        (shouldUseLightTheme config h = true → timeBasedThemeName config h = config.lightTheme) ∧
        (shouldUseLightTheme config h = false → timeBasedThemeName config h = config.darkTheme)) ∧
    shouldUseLightTheme sampleSwitchConfig 5 = false ∧
    shouldUseLightTheme sampleSwitchConfig 6 = true ∧
    shouldUseLightTheme sampleSwitchConfig 17 = true ∧
    shouldUseLightTheme sampleSwitchConfig 18 = false := by
  refine ⟨?_, by decide, by decide, by decide, by decide⟩
  intro cfg h _ _ _
  refine ⟨?_, ?_, ?_, ?_⟩
  · simp [shouldUseLightTheme, ge_iff_le]
  · intro hle
    simp only [shouldUseLightTheme]
    simp only [Bool.and_eq_false_iff, decide_eq_false_iff_not, not_lt, ge_iff_le, not_le]
    omega
  · intro hl
    simp [timeBasedThemeName, hl]
  · intro hl
    simp [timeBasedThemeName, hl]

/-- Witness for C5 at the boundary hour 6 of the sample configuration. -/
theorem timeBased_half_open_interval_witness :
    sampleSwitchConfig.lightHour ≤ 23 ∧ sampleSwitchConfig.darkHour ≤ 23 ∧ (6:Nat) ≤ 23 ∧
    (shouldUseLightTheme sampleSwitchConfig 6 = true ↔
      (sampleSwitchConfig.lightHour ≤ 6 ∧ 6 < sampleSwitchConfig.darkHour)) :=
  ⟨by decide, by decide, by decide,
   (timeBased_half_open_interval.1 sampleSwitchConfig 6 (by decide) (by decide) (by decide)).1⟩

theorem findIdx?_append_singleton_true {α : Type} (l : List α) (p : α → Bool) (x : α)
    (hl : ∀ a ∈ l, p a = false) (hx : p x = true) :
    (l ++ [x]).findIdx? p = some l.length := by
  rw [List.findIdx?_append, List.findIdx?_eq_none_iff.mpr hl]
  simp [hx]

/-- C6 (amended): saving a fresh name appends an entry with `created` and
`modified` set to the save time; saving the same name again overwrites
that entry in place (same position, still exactly one entry with the
name, `modified` set to the second save time), but the stored entry is
the incoming document wholesale — its `created` field is the second
document's `created`, not the first save's timestamp. -/
theorem saveTheme_upsert (l : List TerminalTheme) (d1 d2 : TerminalTheme) (t1 t2 : String)
    (hfresh : ∀ t ∈ l, ¬ t.name = d1.name)
    (hname : d2.name = d1.name) :
    saveTheme l d1 t1 = l ++ [{ d1 with modified := t1, created := t1 }] ∧
    saveTheme (saveTheme l d1 t1) d2 t2 = l ++ [{ d2 with modified := t2 }] ∧
    (saveTheme (saveTheme l d1 t1) d2 t2).countP (fun t => t.name == d1.name) = 1 := by
  have hfreshb : ∀ t ∈ l, (t.name == d1.name) = false :=
    fun t ht => beq_eq_false_iff_ne.mpr (hfresh t ht)
  have h1 : saveTheme l d1 t1 = l ++ [{ d1 with modified := t1, created := t1 }] := by
    unfold saveTheme
    rw [List.findIdx?_eq_none_iff.mpr hfreshb]
  have h2 : saveTheme (saveTheme l d1 t1) d2 t2 = l ++ [{ d2 with modified := t2 }] := by
    rw [h1]
    unfold saveTheme
    rw [findIdx?_append_singleton_true l _ _ ?hl ?hx]
    · simp only []
      rw [List.set_append_right _ _ (Nat.le_refl _)]
      simp
    case hl =>
      intro a ha
      rw [hname]
      exact hfreshb a ha
    case hx =>
      simp [hname]
  refine ⟨h1, h2, ?_⟩
  rw [h2, List.countP_append, List.countP_eq_zero.mpr ?_]
  · simp [hname]
  · intro a ha
    simp [hfreshb a ha]

/-- Witness for the amended C6 starting from the empty store. -/
theorem saveTheme_upsert_witness :
    (∀ t ∈ ([] : List TerminalTheme), ¬ t.name = saveThemeDocA.name) ∧
    saveThemeDocB.name = saveThemeDocA.name ∧
    saveTheme (saveTheme [] saveThemeDocA "2025-01-01T00:00:00.000Z") saveThemeDocB
        "2025-02-02T00:00:00.000Z" =
      [] ++ [{ saveThemeDocB with modified := "2025-02-02T00:00:00.000Z" }] :=
  ⟨fun t ht => absurd ht (List.not_mem_nil t), rfl,
   (saveTheme_upsert [] saveThemeDocA saveThemeDocB "2025-01-01T00:00:00.000Z"
       "2025-02-02T00:00:00.000Z" (fun t ht => absurd ht (List.not_mem_nil t)) rfl).2.1⟩

/-- C6 as stated is false: after saving "X" twice with different content,
the stored entry's `created` equals the second document's own `created`
field, not the timestamp of the first save. -/
theorem saveTheme_created_counterexample :
    (saveTheme (saveTheme [] saveThemeDocA "2025-01-01T00:00:00.000Z") saveThemeDocB
        "2025-02-02T00:00:00.000Z").map (fun t => t.created) =
      ["2029-09-09T09:09:09.000Z"] ∧
    "2029-09-09T09:09:09.000Z" ≠ "2025-01-01T00:00:00.000Z" :=
  ⟨by decide, by decide⟩

theorem pushBackup_eq_take (l : List ThemeBackup) (b : ThemeBackup) :
    pushBackup l b = (b :: l).take 10 := by
  simp only [pushBackup]
  split
  · rfl
  · next h => exact (List.take_of_length_le (by omega)).symm

theorem take_append_take {α : Type} (xs ys : List α) (n : Nat) :
    (xs ++ ys.take n).take n = (xs ++ ys).take n := by
  rw [List.take_append_eq_append_take, List.take_append_eq_append_take, List.take_take]
  rw [Nat.min_eq_left (Nat.sub_le n xs.length)]

theorem foldl_pushBackup (bs : List ThemeBackup) (init : List ThemeBackup)
    (h : init.length ≤ 10) :
    bs.foldl pushBackup init = (bs.reverse ++ init).take 10 := by
  induction bs generalizing init with
  | nil => simp [List.take_of_length_le h]
  | cons b bs ih =>
    rw [List.foldl_cons, ih (pushBackup init b) ?_]
    · rw [pushBackup_eq_take, List.reverse_cons, List.append_assoc]
      exact take_append_take _ _ 10
    · rw [pushBackup_eq_take, List.length_take]
      exact Nat.min_le_left _ _

/-- C7: the backup ring is bounded and most-recent-first: pushing 15
backups in sequence onto any ring holding at most 10 entries leaves
exactly the 10 most recently pushed snapshots, most recent first. -/
theorem backup_ring_bounded (init bs : List ThemeBackup)
    (hinit : init.length ≤ 10) (hlen : bs.length = 15) :
    bs.foldl pushBackup init = bs.reverse.take 10 ∧
    (bs.foldl pushBackup init).length = 10 := by
  have h := foldl_pushBackup bs init hinit
  have hrev : (10:Nat) ≤ bs.reverse.length := by simp [hlen]
  constructor
  · rw [h, List.take_append_of_le_length hrev]
  · rw [h, List.take_append_of_le_length hrev, List.length_take, List.length_reverse, hlen]
    decide

/-- Witness for C7: fifteen concrete backups pushed onto the empty ring
leave exactly 10. -/
theorem backup_ring_bounded_witness :
    ([] : List ThemeBackup).length ≤ 10 ∧ sampleBackups15.length = 15 ∧
    (sampleBackups15.foldl pushBackup []).length = 10 :=
  ⟨by decide, by decide, (backup_ring_bounded [] sampleBackups15 (by decide) (by decide)).2⟩

/-- C3 (amended): the Alacritty YAML encoding is deterministic and
depends only on the document's name, description and 18 terminal color
fields, but the round-trip does not exist: `importTheme` rejects the
`.yml` extension with an unsupported-format error instead of decoding. -/
theorem alacritty_encode_deterministic_decode_unsupported :
    (∀ d1 d2 : TerminalTheme, alacrittyFields d1 = alacrittyFields d2 →
        exportToAlacritty d1 = exportToAlacritty d2) ∧
    importThemeDispatch ".yml" = Except.error "Unsupported file format: .yml" := by
  refine ⟨?_, rfl⟩
  intro d1 d2 h
  unfold alacrittyFields at h
  simp only [Prod.mk.injEq, List.cons.injEq, and_true] at h
  obtain ⟨hn, hdesc, hb, hf, h1, h2, h3, h4, h5, h6, h7, h8, h9, h10, h11, h12, h13, h14, h15,
    h16⟩ := h
  unfold exportToAlacritty
  rw [hn, hdesc, hb, hf, h1, h2, h3, h4, h5, h6, h7, h8, h9, h10, h11, h12, h13, h14, h15, h16]

/-- Witness for the amended C3: two documents differing only in fields
the export does not read produce the same YAML. -/
theorem alacritty_encode_deterministic_witness :
    alacrittyFields sampleTheme = alacrittyFields c3VariantTheme ∧
    exportToAlacritty sampleTheme = exportToAlacritty c3VariantTheme :=
  ⟨rfl, alacritty_encode_deterministic_decode_unsupported.1 sampleTheme c3VariantTheme rfl⟩

/-- C3 as stated is false: the YAML export of a concrete document cannot
be decoded back at all — the import dispatch on the `.yml` extension
raises the unsupported-format error, so no partial theme document is ever
produced. -/
theorem alacritty_roundtrip_counterexample :
    importThemeDispatch ".yml" = Except.error "Unsupported file format: .yml" ∧
    exportToAlacritty sampleTheme ≠ "" :=
  ⟨rfl, by decide⟩

end VibeStudio
